import Mathlib

/-!
Shallow embedding of the STRADE Stacks contracts.

Sources embedded:
* EscrowService.clar : escrow creation, release and refund over a custodial
  STX vault (the contract's own principal).
* DisputeResolution_clar.clar : dispute lifecycle, arbitrator voting and
  majority resolution.
* CoreMarketPlace.clar is exercised only by its test-suite in this
  repository; the one operation a claim needs (purchase-listing) is
  modelled from the specification and the test expectations.

Principals are opaque equality-comparable identities; we embed them as
natural numbers.  Clarity responses are embedded as an `Except` whose
error payload is a Clarity value `CVal`; the contracts' error constants
are themselves `(err uN)` response values, so a thrown
`(err ERR_X)` has the response value `(err (err uN))`, which the
embedding renders as `Except.error (CVal.vErr (CVal.vUint n))`.

The external STX transfer primitive either fully succeeds or fully fails;
its success on a given call is environmental (it depends on balances
outside the contract's own storage), so each operation that performs a
transfer takes the transfer outcome as an explicit boolean parameter.
`block-height` is likewise passed in as an explicit `now` parameter.
-/

/-- The fragment of Clarity values needed for results and error payloads. -/
inductive CVal where
  | vUint : Nat → CVal
  | vBool : Bool → CVal
  | vStr  : String → CVal
  | vErr  : CVal → CVal
deriving DecidableEq

/-- Principals are opaque, equality-comparable identities. -/
abbrev Principal := Nat

namespace EscrowService

/-- The contract deployer (`CONTRACT_OWNER` constant, bound to the deploy
transaction's `tx-sender`). -/
def CONTRACT_OWNER : Principal := 0

/-- The contract's own principal (`(as-contract tx-sender)`), the custodial
vault identity. -/
def VAULT : Principal := 1

def ERR_NOT_AUTHORIZED : CVal := .vErr (.vUint 100)
def ERR_ESCROW_NOT_FOUND : CVal := .vErr (.vUint 101)
def ERR_ALREADY_RELEASED : CVal := .vErr (.vUint 102)
def ERR_TRANSFER_FAILED : CVal := .vErr (.vUint 103)
def ERR_INVALID_ESCROW_ID : CVal := .vErr (.vUint 104)
def ERR_INVALID_AMOUNT : CVal := .vErr (.vUint 105)
def ERR_INVALID_SELLER : CVal := .vErr (.vUint 106)
def ERR_ESCROW_EXPIRED : CVal := .vErr (.vUint 107)
def ESCROW_DURATION : Nat := 1008

/-- One entry of the `Escrows` data map. -/
structure Escrow where
  buyer : Principal
  seller : Principal
  amount : Nat
  state : String
  createdAt : Nat
  expiresAt : Nat
deriving DecidableEq

/-- The persisted state of the EscrowService contract, together with the
vault's custodial STX balance (the STX held by the contract principal). -/
structure VaultState where
  escrows : Nat → Option Escrow
  lastEscrowId : Nat
  vaultBalance : Nat

/-- `is-valid-seller`: the seller must differ from the caller and from the
contract's own principal. -/
def is_valid_seller (txSender seller : Principal) : Prop :=
  seller ≠ txSender ∧ seller ≠ VAULT

instance (txSender seller : Principal) : Decidable (is_valid_seller txSender seller) :=
  inferInstanceAs (Decidable (_ ∧ _))

/-- `is-valid-escrow-id`: the id must not exceed the last assigned id. -/
def is_valid_escrow_id (s : VaultState) (escrowId : Nat) : Prop :=
  escrowId ≤ s.lastEscrowId

instance (s : VaultState) (escrowId : Nat) : Decidable (is_valid_escrow_id s escrowId) :=
  inferInstanceAs (Decidable (_ ≤ _))

/-- `create-escrow`.  `xferOk` is the outcome of
`(stx-transfer? amount tx-sender (as-contract tx-sender))`; on success the
transferred amount joins the vault's custodial balance. -/
def create_escrow (s : VaultState) (txSender : Principal) (seller : Principal)
    (amount : Nat) (now : Nat) (xferOk : Bool) : (Except CVal CVal) × VaultState :=
  let escrowId := s.lastEscrowId + 1
  let expiresAt := now + ESCROW_DURATION
  if amount > 0 then
    if is_valid_seller txSender seller then
      if xferOk then
        (.ok (.vUint escrowId),
          { escrows := fun k =>
              if k = escrowId then
                some { buyer := txSender, seller := seller, amount := amount,
                       state := "locked", createdAt := now, expiresAt := expiresAt }
              else s.escrows k,
            lastEscrowId := escrowId,
            vaultBalance := s.vaultBalance + amount })
      else (.error ERR_TRANSFER_FAILED, s)
    else (.error ERR_INVALID_SELLER, s)
  else (.error ERR_INVALID_AMOUNT, s)

/-- `release-funds`.  `xferOk` is the outcome of
`(as-contract (stx-transfer? amount tx-sender seller))`; on success the
amount leaves the vault's custodial balance. -/
def release_funds (s : VaultState) (txSender : Principal) (escrowId : Nat)
    (now : Nat) (xferOk : Bool) : (Except CVal CVal) × VaultState :=
  if is_valid_escrow_id s escrowId then
    match s.escrows escrowId with
    | none => (.error ERR_ESCROW_NOT_FOUND, s)
    | some escrow =>
      if txSender = CONTRACT_OWNER ∨ txSender = escrow.buyer then
        if escrow.state = "locked" then
          if now ≤ escrow.expiresAt then
            if xferOk then
              (.ok (.vBool true),
                { escrows := fun k =>
                    if k = escrowId then some { escrow with state := "released" }
                    else s.escrows k,
                  lastEscrowId := s.lastEscrowId,
                  vaultBalance := s.vaultBalance - escrow.amount })
            else (.error ERR_TRANSFER_FAILED, s)
          else (.error ERR_ESCROW_EXPIRED, s)
        else (.error ERR_ALREADY_RELEASED, s)
      else (.error ERR_NOT_AUTHORIZED, s)
  else (.error ERR_INVALID_ESCROW_ID, s)

/-- `refund-buyer`.  Owner-only; no expiry check; `xferOk` is the outcome of
`(as-contract (stx-transfer? amount tx-sender buyer))`.  Note the source
reads neither `block-height` nor `expires-at` here. -/
def refund_buyer (s : VaultState) (txSender : Principal) (escrowId : Nat)
    (xferOk : Bool) : (Except CVal CVal) × VaultState :=
  if is_valid_escrow_id s escrowId then
    match s.escrows escrowId with
    | none => (.error ERR_ESCROW_NOT_FOUND, s)
    | some escrow =>
      if txSender = CONTRACT_OWNER then
        if escrow.state = "locked" then
          if xferOk then
            (.ok (.vBool true),
              { escrows := fun k =>
                  if k = escrowId then some { escrow with state := "refunded" }
                  else s.escrows k,
                lastEscrowId := s.lastEscrowId,
                vaultBalance := s.vaultBalance - escrow.amount })
          else (.error ERR_TRANSFER_FAILED, s)
        else (.error ERR_ALREADY_RELEASED, s)
      else (.error ERR_NOT_AUTHORIZED, s)
  else (.error ERR_INVALID_ESCROW_ID, s)

/-- One public call to the contract, with its caller, clock reading and
transfer outcome. -/
inductive EOp where
  | create (txSender seller : Principal) (amount now : Nat) (xferOk : Bool)
  | release (txSender : Principal) (escrowId now : Nat) (xferOk : Bool)
  | refund (txSender : Principal) (escrowId : Nat) (xferOk : Bool)

/-- Run one public call. -/
def runE : EOp → VaultState → (Except CVal CVal) × VaultState
  | .create txSender seller amount now xferOk, s => create_escrow s txSender seller amount now xferOk
  | .release txSender escrowId now xferOk, s => release_funds s txSender escrowId now xferOk
  | .refund txSender escrowId xferOk, s => refund_buyer s txSender escrowId xferOk

/-- Run a sequence of public calls, keeping only the evolving state. -/
def stepsE : List EOp → VaultState → VaultState
  | [], s => s
  | op :: ops, s => stepsE ops (runE op s).2

/-- The contract's state at deployment: no escrows, counter at 0, empty vault. -/
def initE : VaultState :=
  { escrows := fun _ => none, lastEscrowId := 0, vaultBalance := 0 }

/-- States reachable from deployment by public calls. -/
def EReachable (s : VaultState) : Prop :=
  ∃ ops : List EOp, stepsE ops initE = s

/-- The `amount` a given escrow slot contributes to the custodial total:
its amount when Locked, zero otherwise. -/
def lockedAmount (s : VaultState) (i : Nat) : Nat :=
  match s.escrows i with
  | some e => if e.state = "locked" then e.amount else 0
  | none => 0

/-- Sum of `amount` over all Locked escrows (every stored escrow has an id
between 1 and `lastEscrowId`). -/
def lockedSum (s : VaultState) : Nat :=
  ∑ i in Finset.range (s.lastEscrowId + 1), lockedAmount s i

/-- The escrow-accounting invariant: ids beyond the counter are unassigned
and the vault's custodial balance equals the Locked total. -/
def EInv (s : VaultState) : Prop :=
  (∀ i, s.lastEscrowId < i → s.escrows i = none) ∧
    s.vaultBalance = lockedSum s

end EscrowService

namespace DisputeResolution

/-- The contract deployer (`CONTRACT_OWNER`). -/
def CONTRACT_OWNER : Principal := 0

/-- The DisputeResolution contract's own principal (`(as-contract tx-sender)`). -/
def SELF : Principal := 2

def ERR_NOT_AUTHORIZED : CVal := .vErr (.vUint 100)
def ERR_DISPUTE_NOT_FOUND : CVal := .vErr (.vUint 101)
def ERR_INVALID_STATE : CVal := .vErr (.vUint 102)
def ERR_NOT_ARBITRATOR : CVal := .vErr (.vUint 103)
def ERR_ALREADY_VOTED : CVal := .vErr (.vUint 104)
def ERR_VOTING_CLOSED : CVal := .vErr (.vUint 105)
def ERR_INSUFFICIENT_VOTES : CVal := .vErr (.vUint 106)
def ERR_NOT_INVOLVED_PARTY : CVal := .vErr (.vUint 108)
def ERR_INVALID_ESCROW_ID : CVal := .vErr (.vUint 109)
def ERR_INVALID_REASON : CVal := .vErr (.vUint 110)
def ERR_INVALID_DISPUTE_ID : CVal := .vErr (.vUint 111)
def ERR_INVALID_REWARD : CVal := .vErr (.vUint 112)
def ERR_INVALID_PRINCIPAL : CVal := .vErr (.vUint 113)
def VOTING_PERIOD : Nat := 144
def MIN_VOTES_REQUIRED : Nat := 3

/-- One entry of the `Disputes` data map. -/
structure Dispute where
  escrowId : Nat
  initiator : Principal
  counterparty : Principal
  reason : String
  status : String
  createdAt : Nat
  votesFor : Nat
  votesAgainst : Nat
  resolution : Option String
deriving DecidableEq

/-- The persisted state of the DisputeResolution contract.  `arbitrators`
renders the `Arbitrators` map read through `default-to false`, and
`arbitratorVotes` the `ArbitratorVotes` map keyed by
(dispute-id, arbitrator). -/
structure DState where
  disputes : Nat → Option Dispute
  arbitrators : Principal → Bool
  arbitratorVotes : Nat → Principal → Option Bool
  lastDisputeId : Nat
  arbitratorReward : Nat

/-- `is-arbitrator`. -/
def is_arbitrator (s : DState) (user : Principal) : Bool :=
  s.arbitrators user

/-- `has-voted`: a vote record exists for the (dispute, arbitrator) pair. -/
def has_voted (s : DState) (disputeId : Nat) (arbitrator : Principal) : Bool :=
  (s.arbitratorVotes disputeId arbitrator).isSome

/-- `update-vote-count`: bump the matching tally of the stored dispute. -/
def update_vote_count (s : DState) (disputeId : Nat) (vote : Bool) :
    (Except CVal CVal) × DState :=
  match s.disputes disputeId with
  | some dispute =>
    let newVotesFor := if vote then dispute.votesFor + 1 else dispute.votesFor
    let newVotesAgainst := if vote then dispute.votesAgainst else dispute.votesAgainst + 1
    (.ok (.vBool true),
      { s with disputes := fun k =>
          if k = disputeId then
            some { dispute with votesFor := newVotesFor, votesAgainst := newVotesAgainst }
          else s.disputes k })
  | none => (.error ERR_DISPUTE_NOT_FOUND, s)

/-- `is-valid-escrow-id` (DisputeResolution's version: only positivity). -/
def dr_is_valid_escrow_id (escrowId : Nat) : Prop :=
  escrowId > 0

instance (escrowId : Nat) : Decidable (dr_is_valid_escrow_id escrowId) :=
  inferInstanceAs (Decidable (_ < _))

/-- `is-valid-reason`. -/
def is_valid_reason (reason : String) : Prop :=
  reason.length > 0 ∧ reason.length ≤ 256

instance (reason : String) : Decidable (is_valid_reason reason) :=
  inferInstanceAs (Decidable (_ ∧ _))

/-- `is-valid-dispute-id`. -/
def is_valid_dispute_id (s : DState) (disputeId : Nat) : Prop :=
  disputeId ≤ s.lastDisputeId

instance (s : DState) (disputeId : Nat) : Decidable (is_valid_dispute_id s disputeId) :=
  inferInstanceAs (Decidable (_ ≤ _))

/-- `is-valid-principal` (≠ owner, ≠ the contract's own principal). -/
def dr_is_valid_principal (p : Principal) : Prop :=
  p ≠ CONTRACT_OWNER ∧ p ≠ SELF

instance (p : Principal) : Decidable (dr_is_valid_principal p) :=
  inferInstanceAs (Decidable (_ ∧ _))

/-- `raise-dispute`. -/
def raise_dispute (s : DState) (txSender : Principal) (escrowId : Nat)
    (counterparty : Principal) (reason : String) (now : Nat) :
    (Except CVal CVal) × DState :=
  let disputeId := s.lastDisputeId + 1
  if dr_is_valid_escrow_id escrowId then
    if is_valid_reason reason then
      if ¬ txSender = counterparty then
        (.ok (.vUint disputeId),
          { s with
            disputes := fun k =>
              if k = disputeId then
                some { escrowId := escrowId, initiator := txSender,
                       counterparty := counterparty, reason := reason,
                       status := "open", createdAt := now,
                       votesFor := 0, votesAgainst := 0, resolution := none }
              else s.disputes k,
            lastDisputeId := disputeId })
      else (.error ERR_NOT_INVOLVED_PARTY, s)
    else (.error ERR_INVALID_REASON, s)
  else (.error ERR_INVALID_ESCROW_ID, s)

/-- `vote-on-dispute`.  The dispute is unwrapped from the map before the
`is-valid-dispute-id` assertion, mirroring the source order.  A propagated
`update-vote-count` error aborts the call with no net state change
(Clarity rolls an erring public call back). -/
def vote_on_dispute (s : DState) (txSender : Principal) (disputeId : Nat)
    (vote : Bool) (now : Nat) : (Except CVal CVal) × DState :=
  match s.disputes disputeId with
  | none => (.error ERR_DISPUTE_NOT_FOUND, s)
  | some dispute =>
    if is_valid_dispute_id s disputeId then
      if is_arbitrator s txSender then
        if dispute.status = "open" then
          if now - dispute.createdAt ≤ VOTING_PERIOD then
            if ¬ has_voted s disputeId txSender then
              match update_vote_count s disputeId vote with
              | (.ok _, s1) =>
                (.ok (.vBool true),
                  { s1 with arbitratorVotes := fun i a =>
                      if i = disputeId ∧ a = txSender then some vote
                      else s1.arbitratorVotes i a })
              | (.error e, _) => (.error e, s)
            else (.error ERR_ALREADY_VOTED, s)
          else (.error ERR_VOTING_CLOSED, s)
        else (.error ERR_VOTING_CLOSED, s)
      else (.error ERR_NOT_ARBITRATOR, s)
    else (.error ERR_INVALID_DISPUTE_ID, s)

/-- `resolve-dispute`.  The dispute is unwrapped before the
`is-valid-dispute-id` assertion, mirroring the source order. -/
def resolve_dispute (s : DState) (disputeId : Nat) (now : Nat) :
    (Except CVal CVal) × DState :=
  match s.disputes disputeId with
  | none => (.error ERR_DISPUTE_NOT_FOUND, s)
  | some dispute =>
    if is_valid_dispute_id s disputeId then
      if dispute.status = "open" then
        if dispute.votesFor + dispute.votesAgainst ≥ MIN_VOTES_REQUIRED then
          if now - dispute.createdAt ≤ VOTING_PERIOD then
            let resolution : String :=
              if dispute.votesFor > dispute.votesAgainst then "for_initiator"
              else "for_counterparty"
            (.ok (.vStr resolution),
              { s with disputes := fun k =>
                  if k = disputeId then
                    some { dispute with
                           status := "resolved"
                           resolution := some resolution }
                  else s.disputes k })
          else (.error ERR_VOTING_CLOSED, s)
        else (.error ERR_INSUFFICIENT_VOTES, s)
      else (.error ERR_INVALID_STATE, s)
    else (.error ERR_INVALID_DISPUTE_ID, s)

/-- `add-arbitrator` (Owner-only). -/
def add_arbitrator (s : DState) (txSender arbitrator : Principal) :
    (Except CVal CVal) × DState :=
  if txSender = CONTRACT_OWNER then
    if dr_is_valid_principal arbitrator then
      (.ok (.vBool true),
        { s with arbitrators := fun p => if p = arbitrator then true else s.arbitrators p })
    else (.error ERR_INVALID_PRINCIPAL, s)
  else (.error ERR_NOT_AUTHORIZED, s)

/-- `remove-arbitrator` (Owner-only; `map-delete` read back through
`default-to false` is setting the flag to false). -/
def remove_arbitrator (s : DState) (txSender arbitrator : Principal) :
    (Except CVal CVal) × DState :=
  if txSender = CONTRACT_OWNER then
    if dr_is_valid_principal arbitrator then
      (.ok (.vBool true),
        { s with arbitrators := fun p => if p = arbitrator then false else s.arbitrators p })
    else (.error ERR_INVALID_PRINCIPAL, s)
  else (.error ERR_NOT_AUTHORIZED, s)

/-- `set-arbitrator-reward` (Owner-only). -/
def set_arbitrator_reward (s : DState) (txSender : Principal) (newReward : Nat) :
    (Except CVal CVal) × DState :=
  if txSender = CONTRACT_OWNER then
    if newReward > 0 then
      (.ok (.vBool true), { s with arbitratorReward := newReward })
    else (.error ERR_INVALID_REWARD, s)
  else (.error ERR_NOT_AUTHORIZED, s)

/-- One public call to the DisputeResolution contract. -/
inductive DOp where
  | raise (txSender : Principal) (escrowId : Nat) (counterparty : Principal)
      (reason : String) (now : Nat)
  | vote (txSender : Principal) (disputeId : Nat) (vote : Bool) (now : Nat)
  | resolve (disputeId now : Nat)
  | addArb (txSender arbitrator : Principal)
  | removeArb (txSender arbitrator : Principal)
  | setReward (txSender : Principal) (newReward : Nat)

/-- Run one public call. -/
def runD : DOp → DState → (Except CVal CVal) × DState
  | .raise txSender escrowId counterparty reason now, s =>
      raise_dispute s txSender escrowId counterparty reason now
  | .vote txSender disputeId v now, s => vote_on_dispute s txSender disputeId v now
  | .resolve disputeId now, s => resolve_dispute s disputeId now
  | .addArb txSender arbitrator, s => add_arbitrator s txSender arbitrator
  | .removeArb txSender arbitrator, s => remove_arbitrator s txSender arbitrator
  | .setReward txSender newReward, s => set_arbitrator_reward s txSender newReward

/-- Run a sequence of public calls. -/
def stepsD : List DOp → DState → DState
  | [], s => s
  | op :: ops, s => stepsD ops (runD op s).2

/-- The contract's state at deployment. -/
def initD : DState :=
  { disputes := fun _ => none, arbitrators := fun _ => false,
    arbitratorVotes := fun _ _ => none, lastDisputeId := 0, arbitratorReward := 100 }

/-- States reachable from deployment by public calls. -/
def DReachable (s : DState) : Prop :=
  ∃ ops : List DOp, stepsD ops initD = s

/-- The id-bound invariant: slots beyond the counter are unassigned. -/
def DInv (s : DState) : Prop :=
  ∀ i, s.lastDisputeId < i → s.disputes i = none

end DisputeResolution

namespace CoreMarketPlace

def ERR_NOT_FOUND : CVal := .vErr (.vUint 101)
def ERR_INSUFFICIENT_BALANCE : CVal := .vErr (.vUint 104)
def ERR_LISTING_EXPIRED : CVal := .vErr (.vUint 105)
def ERR_INVALID_STATUS : CVal := .vErr (.vUint 106)
def ERR_INVALID_LISTING_ID : CVal := .vErr (.vUint 111)

/-- Modelled from the spec: CoreMarketPlace.clar is not present in this
repository snapshot (only its test-suite is); a Listing record per spec
section 3. -/
structure Listing where
  seller : Principal
  name : String
  description : String
  price : Nat
  status : String
  createdAt : Nat
  expiresAt : Nat
deriving DecidableEq

/-- Modelled from the spec: the marketplace's persisted listing table and
id counter. -/
structure MState where
  listings : Nat → Option Listing
  lastListingId : Nat

/-- Modelled from the spec: `purchase_listing` from spec section 4.1 with
error codes and check order fixed by the expectations in
src/tests/CoreMarketPlace.test.ts — id bound (111), existence (101),
`status == "active"` (106, covering already-sold and cancelled), then
`now ≤ expires_at` (105), then the buyer-to-seller transfer (104), and on
success the status becomes "sold".  Error payloads are nested `err`
responses, as the tests assert (`Cl.error(Cl.uint(...))` inside
`toBeErr`). -/
def purchase_listing (s : MState) (txSender : Principal) (listingId : Nat)
    (now : Nat) (xferOk : Bool) : (Except CVal CVal) × MState :=
  if listingId ≤ s.lastListingId then
    match s.listings listingId with
    | none => (.error ERR_NOT_FOUND, s)
    | some listing =>
      if listing.status = "active" then
        if now ≤ listing.expiresAt then
          if xferOk then
            (.ok (.vBool true),
              { s with listings := fun k =>
                  if k = listingId then some { listing with status := "sold" }
                  else s.listings k })
          else (.error ERR_INSUFFICIENT_BALANCE, s)
        else (.error ERR_LISTING_EXPIRED, s)
      else (.error ERR_INVALID_STATUS, s)
  else (.error ERR_INVALID_LISTING_ID, s)

end CoreMarketPlace

/-- True exactly when a call result is an error response. -/
def isErr : Except CVal CVal → Bool
  | .error _ => true
  | .ok _ => false

instance exceptDecEq {α β : Type} [DecidableEq α] [DecidableEq β] :
    DecidableEq (Except α β)
  | .error a, .error b =>
    if h : a = b then .isTrue (by rw [h])
    else .isFalse (by intro hc; injection hc; contradiction)
  | .error _, .ok _ => .isFalse (by intro hc; exact Except.noConfusion hc)
  | .ok _, .error _ => .isFalse (by intro hc; exact Except.noConfusion hc)
  | .ok a, .ok b =>
    if h : a = b then .isTrue (by rw [h])
    else .isFalse (by intro hc; injection hc; contradiction)

/-- The error payload is a nested `err` response holding a code in the
given inclusive range. -/
def wrapsCodeIn (lo hi : Nat) : CVal → Bool
  | .vErr (.vUint n) => decide (lo ≤ n) && decide (n ≤ hi)
  | _ => false

namespace EscrowService

/-- A sample locked escrow used to instantiate theorems: buyer 2, seller 3,
amount 5, created at tick 0. -/
def wLockedEscrow : Escrow :=
  { buyer := 2, seller := 3, amount := 5, state := "locked",
    createdAt := 0, expiresAt := ESCROW_DURATION }

/-- A sample vault state holding exactly the one locked escrow. -/
def wVaultState : VaultState :=
  { escrows := fun k => if k = 1 then some wLockedEscrow else none,
    lastEscrowId := 1, vaultBalance := 5 }

/-- A sample trace: create an escrow, then release it. -/
def wEOps : List EOp := [.create 2 3 5 0 true, .release 2 1 0 true]

/-- The sample released escrow the trace `wEOps` leaves at id 1. -/
def wReleasedEscrow : Escrow :=
  { buyer := 2, seller := 3, amount := 5, state := "released",
    createdAt := 0, expiresAt := ESCROW_DURATION }

end EscrowService

namespace DisputeResolution

/-- A sample open dispute with a 2–2 vote tie. -/
def wTieDispute : Dispute :=
  { escrowId := 1, initiator := 3, counterparty := 4, reason := "r",
    status := "open", createdAt := 0, votesFor := 2, votesAgainst := 2,
    resolution := none }

/-- A sample dispute state holding exactly the tied dispute. -/
def wTieState : DState :=
  { disputes := fun k => if k = 1 then some wTieDispute else none,
    arbitrators := fun _ => false, arbitratorVotes := fun _ _ => none,
    lastDisputeId := 1, arbitratorReward := 100 }

/-- A sample open dispute on which arbitrator 5 has already voted. -/
def wVotedDispute : Dispute :=
  { escrowId := 1, initiator := 3, counterparty := 4, reason := "r",
    status := "open", createdAt := 0, votesFor := 1, votesAgainst := 0,
    resolution := none }

/-- A sample dispute state in which arbitrator 5 has already voted on
dispute 1. -/
def wVotedState : DState :=
  { disputes := fun k => if k = 1 then some wVotedDispute else none,
    arbitrators := fun p => decide (p = 5),
    arbitratorVotes := fun i a => if i = 1 ∧ a = 5 then some true else none,
    lastDisputeId := 1, arbitratorReward := 100 }

/-- A sample trace: raise a dispute, add three arbitrators, cast three
votes (two for, one against) and resolve the dispute. -/
def wDOps : List DOp :=
  [.raise 3 1 4 "r" 0, .addArb 0 5, .addArb 0 6, .addArb 0 7,
   .vote 5 1 true 1, .vote 6 1 true 1, .vote 7 1 false 1, .resolve 1 2]

/-- The resolved dispute the trace `wDOps` leaves at id 1. -/
def wResolvedDispute : Dispute :=
  { escrowId := 1, initiator := 3, counterparty := 4, reason := "r",
    status := "resolved", createdAt := 0, votesFor := 2, votesAgainst := 1,
    resolution := some "for_initiator" }

end DisputeResolution

namespace CoreMarketPlace

/-- A sample active listing: seller 3, price 5, expiring at tick 100. -/
def wActiveListing : Listing :=
  { seller := 3, name := "n", description := "d", price := 5,
    status := "active", createdAt := 0, expiresAt := 100 }

/-- A sample marketplace state holding exactly the active listing. -/
def wMState : MState :=
  { listings := fun k => if k = 1 then some wActiveListing else none,
    lastListingId := 1 }

end CoreMarketPlace

/-! ## Helper lemmas -/

/-- Zeroing a summand at one point of a range drops exactly that summand. -/
theorem sum_range_zero_at_add (f : Nat → Nat) (n j : Nat) (hj : j < n) :
    (∑ i ∈ Finset.range n, if i = j then 0 else f i) + f j =
      ∑ i ∈ Finset.range n, f i := by
  have hmem : j ∈ Finset.range n := Finset.mem_range.mpr hj
  have e1 : (∑ i ∈ Finset.range n, if i = j then 0 else f i)
      = ∑ i ∈ (Finset.range n).erase j, f i := by
    rw [← Finset.add_sum_erase _ _ hmem]
    rw [if_pos rfl, Nat.zero_add]
    exact Finset.sum_congr rfl fun i hi => if_neg (Finset.ne_of_mem_erase hi)
  rw [e1, Finset.sum_erase_add _ _ hmem]

/-- Extending a range sum by one index, for a function agreeing with `f`
below the new index. -/
theorem sum_range_succ_congr (f g : Nat → Nat) (n : Nat)
    (h : ∀ i, i < n → g i = f i) :
    ∑ i ∈ Finset.range (n + 1), g i = (∑ i ∈ Finset.range n, f i) + g n := by
  rw [Finset.sum_range_succ]
  congr 1
  exact Finset.sum_congr rfl fun i hi => h i (Finset.mem_range.mp hi)

namespace EscrowService

/-- The deployment state satisfies the escrow-accounting invariant. -/
theorem EInv_initE : EInv initE := by
  constructor
  · intro i _
    rfl
  · decide

/-- `create-escrow` preserves the escrow-accounting invariant. -/
theorem create_escrow_preserves_EInv (s : VaultState) (t sel : Principal)
    (amt cnow : Nat) (ok : Bool) (h : EInv s) :
    EInv (create_escrow s t sel amt cnow ok).2 := by
  obtain ⟨hb, hv⟩ := h
  unfold create_escrow
  by_cases h1 : amt > 0
  · by_cases h2 : is_valid_seller t sel
    · by_cases h3 : ok = true
      · subst h3
        simp only [if_pos h1, if_pos h2, if_true]
        constructor
        · intro i hi
          simp only at hi
          have hne : i ≠ s.lastEscrowId + 1 := by omega
          simp only [hne, if_false]
          exact hb i (by omega)
        · show s.vaultBalance + amt = lockedSum _
          unfold lockedSum
          rw [sum_range_succ_congr (lockedAmount s) _ (s.lastEscrowId + 1) ?agree]
          case agree =>
            intro i hi
            have hne : i ≠ s.lastEscrowId + 1 := by omega
            unfold lockedAmount
            simp only [hne, if_false]
          have hnew : lockedAmount
              { escrows := fun k => if k = s.lastEscrowId + 1 then
                  some { buyer := t, seller := sel, amount := amt,
                         state := "locked", createdAt := cnow,
                         expiresAt := cnow + ESCROW_DURATION }
                  else s.escrows k,
                lastEscrowId := s.lastEscrowId + 1,
                vaultBalance := s.vaultBalance + amt } (s.lastEscrowId + 1) = amt := by
            unfold lockedAmount
            simp
          rw [hnew, hv]
          unfold lockedSum
          rw [Nat.add_comm]
      · have h3f : ok = false := by
          cases ok
          · rfl
          · exact absurd rfl h3
        subst h3f
        simp only [if_pos h1, if_pos h2, if_false]
        exact ⟨hb, hv⟩
    · simp only [if_pos h1, if_neg h2]
      exact ⟨hb, hv⟩
  · simp only [if_neg h1]
    exact ⟨hb, hv⟩

/-- Settling (releasing or refunding) a locked escrow moves its slot out of
the Locked sum and pays its amount out of the vault, preserving the
escrow-accounting invariant. -/
theorem EInv_settle (s : VaultState) (id : Nat) (e : Escrow) (newState : String)
    (hid : id ≤ s.lastEscrowId) (hmem : s.escrows id = some e)
    (hlock : e.state = "locked") (hnew : newState ≠ "locked") (h : EInv s) :
    EInv { escrows := fun k => if k = id then some { e with state := newState }
                               else s.escrows k,
           lastEscrowId := s.lastEscrowId,
           vaultBalance := s.vaultBalance - e.amount } := by
  obtain ⟨hb, hv⟩ := h
  constructor
  · intro i hi
    simp only at hi ⊢
    have hne : i ≠ id := by omega
    simp only [hne, if_false]
    exact hb i hi
  · show s.vaultBalance - e.amount = lockedSum _
    have hpt : ∀ i, lockedAmount
        { escrows := fun k => if k = id then some { e with state := newState }
                              else s.escrows k,
          lastEscrowId := s.lastEscrowId,
          vaultBalance := s.vaultBalance - e.amount } i =
        if i = id then 0 else lockedAmount s i := by
      intro i
      by_cases hii : i = id
      · subst hii
        unfold lockedAmount
        simp [hnew]
      · unfold lockedAmount
        simp [hii]
    have hfid : lockedAmount s id = e.amount := by
      unfold lockedAmount
      simp [hmem, hlock]
    have hsum : lockedSum
        { escrows := fun k => if k = id then some { e with state := newState }
                              else s.escrows k,
          lastEscrowId := s.lastEscrowId,
          vaultBalance := s.vaultBalance - e.amount } + e.amount = lockedSum s := by
      unfold lockedSum
      simp only [hpt]
      rw [← hfid]
      exact sum_range_zero_at_add (lockedAmount s) (s.lastEscrowId + 1) id (by omega)
    omega

/-- `release-funds` preserves the escrow-accounting invariant. -/
theorem release_funds_preserves_EInv (s : VaultState) (t : Principal)
    (id cnow : Nat) (ok : Bool) (h : EInv s) :
    EInv (release_funds s t id cnow ok).2 := by
  unfold release_funds
  by_cases h1 : is_valid_escrow_id s id
  · cases hm : s.escrows id with
    | none =>
      simp only [if_pos h1, hm]
      exact h
    | some e =>
      simp only [if_pos h1, hm]
      by_cases h2 : t = CONTRACT_OWNER ∨ t = e.buyer
      · by_cases h3 : e.state = "locked"
        · by_cases h4 : cnow ≤ e.expiresAt
          · by_cases h5 : ok = true
            · subst h5
              simp only [if_pos h2, if_pos h3, if_pos h4, if_true]
              exact EInv_settle s id e "released" h1 hm h3 (by decide) h
            · have h5f : ok = false := by
                cases ok
                · rfl
                · exact absurd rfl h5
              subst h5f
              simp only [if_pos h2, if_pos h3, if_pos h4, Bool.false_eq_true,
                if_false]
              exact h
          · simp only [if_pos h2, if_pos h3, if_neg h4]
            exact h
        · simp only [if_pos h2, if_neg h3]
          exact h
      · simp only [if_neg h2]
        exact h
  · simp only [if_neg h1]
    exact h

/-- `refund-buyer` preserves the escrow-accounting invariant. -/
theorem refund_buyer_preserves_EInv (s : VaultState) (t : Principal)
    (id : Nat) (ok : Bool) (h : EInv s) :
    EInv (refund_buyer s t id ok).2 := by
  unfold refund_buyer
  by_cases h1 : is_valid_escrow_id s id
  · cases hm : s.escrows id with
    | none =>
      simp only [if_pos h1, hm]
      exact h
    | some e =>
      simp only [if_pos h1, hm]
      by_cases h2 : t = CONTRACT_OWNER
      · by_cases h3 : e.state = "locked"
        · by_cases h5 : ok = true
          · subst h5
            simp only [if_pos h2, if_pos h3, if_true]
            exact EInv_settle s id e "refunded" h1 hm h3 (by decide) h
          · have h5f : ok = false := by
              cases ok
              · rfl
              · exact absurd rfl h5
            subst h5f
            simp only [if_pos h2, if_pos h3, Bool.false_eq_true, if_false]
            exact h
        · simp only [if_pos h2, if_neg h3]
          exact h
      · simp only [if_neg h2]
        exact h
  · simp only [if_neg h1]
    exact h

/-- Every public call preserves the escrow-accounting invariant. -/
theorem runE_preserves_EInv (op : EOp) (s : VaultState) (h : EInv s) :
    EInv (runE op s).2 := by
  cases op with
  | create t sel amt cnow ok => exact create_escrow_preserves_EInv s t sel amt cnow ok h
  | release t id cnow ok => exact release_funds_preserves_EInv s t id cnow ok h
  | refund t id ok => exact refund_buyer_preserves_EInv s t id ok h

/-- Call sequences preserve the escrow-accounting invariant. -/
theorem stepsE_preserves_EInv (ops : List EOp) :
    ∀ s : VaultState, EInv s → EInv (stepsE ops s) := by
  induction ops with
  | nil => intro s h; exact h
  | cons op ops ih =>
    intro s h
    exact ih _ (runE_preserves_EInv op s h)

/-- Every reachable vault state satisfies the escrow-accounting invariant. -/
theorem EReachable_EInv (s : VaultState) (h : EReachable s) : EInv s := by
  obtain ⟨ops, rfl⟩ := h
  exact stepsE_preserves_EInv ops initE EInv_initE

/-- Under the id-bound invariant, a single public call leaves every stored
non-Locked escrow record untouched. -/
theorem runE_keeps_escrow_terminal (op : EOp) (s : VaultState) (i : Nat)
    (e : Escrow) (hinv : EInv s) (hmem : s.escrows i = some e)
    (hterm : e.state ≠ "locked") :
    (runE op s).2.escrows i = some e := by
  obtain ⟨hb, _⟩ := hinv
  have hile : i ≤ s.lastEscrowId := by
    by_contra hgt
    rw [hb i (by omega)] at hmem
    exact Option.noConfusion hmem
  cases op with
  | create t sel amt cnow ok =>
    show (create_escrow s t sel amt cnow ok).2.escrows i = some e
    unfold create_escrow
    by_cases h1 : amt > 0
    · by_cases h2 : is_valid_seller t sel
      · by_cases h3 : ok = true
        · subst h3
          simp only [if_pos h1, if_pos h2, if_true]
          have hne : i ≠ s.lastEscrowId + 1 := by omega
          simp only [hne, if_false]
          exact hmem
        · have h3f : ok = false := by
            cases ok
            · rfl
            · exact absurd rfl h3
          subst h3f
          simp only [if_pos h1, if_pos h2, Bool.false_eq_true, if_false]
          exact hmem
      · simp only [if_pos h1, if_neg h2]
        exact hmem
    · simp only [if_neg h1]
      exact hmem
  | release t id cnow ok =>
    show (release_funds s t id cnow ok).2.escrows i = some e
    unfold release_funds
    by_cases h1 : is_valid_escrow_id s id
    · cases hm : s.escrows id with
      | none =>
        simp only [if_pos h1, hm]
        exact hmem
      | some e2 =>
        simp only [if_pos h1, hm]
        by_cases h2 : t = CONTRACT_OWNER ∨ t = e2.buyer
        · by_cases h3 : e2.state = "locked"
          · by_cases h4 : cnow ≤ e2.expiresAt
            · by_cases h5 : ok = true
              · subst h5
                simp only [if_pos h2, if_pos h3, if_pos h4, if_true]
                have hne : i ≠ id := by
                  intro hd
                  subst hd
                  rw [hmem] at hm
                  cases hm
                  exact hterm h3
                simp only [hne, if_false]
                exact hmem
              · have h5f : ok = false := by
                  cases ok
                  · rfl
                  · exact absurd rfl h5
                subst h5f
                simp only [if_pos h2, if_pos h3, if_pos h4, Bool.false_eq_true,
                  if_false]
                exact hmem
            · simp only [if_pos h2, if_pos h3, if_neg h4]
              exact hmem
          · simp only [if_pos h2, if_neg h3]
            exact hmem
        · simp only [if_neg h2]
          exact hmem
    · simp only [if_neg h1]
      exact hmem
  | refund t id ok =>
    show (refund_buyer s t id ok).2.escrows i = some e
    unfold refund_buyer
    by_cases h1 : is_valid_escrow_id s id
    · cases hm : s.escrows id with
      | none =>
        simp only [if_pos h1, hm]
        exact hmem
      | some e2 =>
        simp only [if_pos h1, hm]
        by_cases h2 : t = CONTRACT_OWNER
        · by_cases h3 : e2.state = "locked"
          · by_cases h5 : ok = true
            · subst h5
              simp only [if_pos h2, if_pos h3, if_true]
              have hne : i ≠ id := by
                intro hd
                subst hd
                rw [hmem] at hm
                cases hm
                exact hterm h3
              simp only [hne, if_false]
              exact hmem
            · have h5f : ok = false := by
                cases ok
                · rfl
                · exact absurd rfl h5
              subst h5f
              simp only [if_pos h2, if_pos h3, Bool.false_eq_true, if_false]
              exact hmem
          · simp only [if_pos h2, if_neg h3]
            exact hmem
        · simp only [if_neg h2]
          exact hmem
    · simp only [if_neg h1]
      exact hmem

/-- Under reachability, a whole call sequence leaves every stored
non-Locked escrow record untouched. -/
theorem stepsE_keeps_escrow_terminal (ops : List EOp) :
    ∀ (s : VaultState) (i : Nat) (e : Escrow), EInv s → s.escrows i = some e →
      e.state ≠ "locked" → (stepsE ops s).escrows i = some e := by
  induction ops with
  | nil =>
    intro s i e _ hmem _
    exact hmem
  | cons op ops ih =>
    intro s i e hinv hmem hterm
    exact ih _ i e (runE_preserves_EInv op s hinv)
      (runE_keeps_escrow_terminal op s i e hinv hmem hterm) hterm

end EscrowService

namespace DisputeResolution

/-- The deployment state satisfies the id-bound invariant. -/
theorem DInv_initD : DInv initD := by
  intro i _
  rfl

/-- Every public call preserves the id-bound invariant. -/
theorem runD_preserves_DInv (op : DOp) (s : DState) (h : DInv s) :
    DInv (runD op s).2 := by
  cases op with
  | raise t eid cp reason cnow =>
    show DInv (raise_dispute s t eid cp reason cnow).2
    unfold raise_dispute
    by_cases h1 : dr_is_valid_escrow_id eid
    · by_cases h2 : is_valid_reason reason
      · by_cases h3 : t = cp
        · simp only [if_pos h1, if_pos h2, h3, not_true, if_neg, ite_not]
          simp only [if_false]
          exact h
        · simp only [if_pos h1, if_pos h2, if_neg h3, ite_not, if_pos]
          intro i hi
          simp only at hi ⊢
          have hne : i ≠ s.lastDisputeId + 1 := by omega
          simp only [hne, if_false]
          exact h i (by omega)
      · simp only [if_pos h1, if_neg h2]
        exact h
    · simp only [if_neg h1]
      exact h
  | vote t did v cnow =>
    show DInv (vote_on_dispute s t did v cnow).2
    unfold vote_on_dispute
    cases hm : s.disputes did with
    | none =>
      simp only [hm]
      exact h
    | some d =>
      simp only [hm]
      by_cases h1 : is_valid_dispute_id s did
      · by_cases h2 : is_arbitrator s t = true
        · by_cases h3 : d.status = "open"
          · by_cases h4 : cnow - d.createdAt ≤ VOTING_PERIOD
            · by_cases h5 : has_voted s did t = true
              · simp only [if_pos h1, h2, if_true, if_pos h3, if_pos h4, h5,
                  not_true, if_neg, ite_not, if_false]
                exact h
              · have h5f : has_voted s did t = false := by
                  cases hhv : has_voted s did t
                  · rfl
                  · exact absurd hhv h5
                simp only [if_pos h1, h2, if_true, if_pos h3, if_pos h4, h5f,
                  Bool.false_eq_true, not_false_iff, ite_not, if_false,
                  update_vote_count, hm]
                intro i hi
                simp only at hi ⊢
                have hne : i ≠ did := by
                  intro hd
                  subst hd
                  have : i ≤ s.lastDisputeId := h1
                  omega
                simp only [hne, if_false]
                exact h i (by omega)
            · simp only [if_pos h1, h2, if_true, if_pos h3, if_neg h4]
              exact h
          · simp only [if_pos h1, h2, if_true, if_neg h3]
            exact h
        · have h2f : is_arbitrator s t = false := by
            cases hav : is_arbitrator s t
            · rfl
            · exact absurd hav h2
          simp only [if_pos h1, h2f, Bool.false_eq_true, if_false]
          exact h
      · simp only [if_neg h1]
        exact h
  | resolve did cnow =>
    show DInv (resolve_dispute s did cnow).2
    unfold resolve_dispute
    cases hm : s.disputes did with
    | none =>
      simp only [hm]
      exact h
    | some d =>
      simp only [hm]
      by_cases h1 : is_valid_dispute_id s did
      · by_cases h3 : d.status = "open"
        · by_cases h4 : d.votesFor + d.votesAgainst ≥ MIN_VOTES_REQUIRED
          · by_cases h5 : cnow - d.createdAt ≤ VOTING_PERIOD
            · simp only [if_pos h1, if_pos h3, if_pos h4, if_pos h5]
              intro i hi
              simp only at hi ⊢
              have hne : i ≠ did := by
                intro hd
                subst hd
                have : i ≤ s.lastDisputeId := h1
                omega
              simp only [hne, if_false]
              exact h i (by omega)
            · simp only [if_pos h1, if_pos h3, if_pos h4, if_neg h5]
              exact h
          · simp only [if_pos h1, if_pos h3, if_neg h4]
            exact h
        · simp only [if_pos h1, if_neg h3]
          exact h
      · simp only [if_neg h1]
        exact h
  | addArb t a =>
    show DInv (add_arbitrator s t a).2
    unfold add_arbitrator
    by_cases h1 : t = CONTRACT_OWNER
    · by_cases h2 : dr_is_valid_principal a
      · simp only [if_pos h1, if_pos h2]
        exact h
      · simp only [if_pos h1, if_neg h2]
        exact h
    · simp only [if_neg h1]
      exact h
  | removeArb t a =>
    show DInv (remove_arbitrator s t a).2
    unfold remove_arbitrator
    by_cases h1 : t = CONTRACT_OWNER
    · by_cases h2 : dr_is_valid_principal a
      · simp only [if_pos h1, if_pos h2]
        exact h
      · simp only [if_pos h1, if_neg h2]
        exact h
    · simp only [if_neg h1]
      exact h
  | setReward t r =>
    show DInv (set_arbitrator_reward s t r).2
    unfold set_arbitrator_reward
    by_cases h1 : t = CONTRACT_OWNER
    · by_cases h2 : r > 0
      · simp only [if_pos h1, if_pos h2]
        exact h
      · simp only [if_pos h1, if_neg h2]
        exact h
    · simp only [if_neg h1]
      exact h

/-- Call sequences preserve the id-bound invariant. -/
theorem stepsD_preserves_DInv (ops : List DOp) :
    ∀ s : DState, DInv s → DInv (stepsD ops s) := by
  induction ops with
  | nil => intro s h; exact h
  | cons op ops ih =>
    intro s h
    exact ih _ (runD_preserves_DInv op s h)

/-- Every reachable dispute state satisfies the id-bound invariant. -/
theorem DReachable_DInv (s : DState) (h : DReachable s) : DInv s := by
  obtain ⟨ops, rfl⟩ := h
  exact stepsD_preserves_DInv ops initD DInv_initD

/-- Under the id-bound invariant, a single public call leaves every stored
non-Open dispute record untouched. -/
theorem runD_keeps_dispute_closed (op : DOp) (s : DState) (j : Nat)
    (d : Dispute) (hinv : DInv s) (hmem : s.disputes j = some d)
    (hres : d.status ≠ "open") :
    (runD op s).2.disputes j = some d := by
  have hjle : j ≤ s.lastDisputeId := by
    by_contra hgt
    rw [hinv j (by omega)] at hmem
    exact Option.noConfusion hmem
  cases op with
  | raise t eid cp reason cnow =>
    show (raise_dispute s t eid cp reason cnow).2.disputes j = some d
    unfold raise_dispute
    by_cases h1 : dr_is_valid_escrow_id eid
    · by_cases h2 : is_valid_reason reason
      · by_cases h3 : t = cp
        · simp only [if_pos h1, if_pos h2, h3, not_true, ite_not, if_false]
          exact hmem
        · simp only [if_pos h1, if_pos h2, if_neg h3, ite_not, if_pos]
          have hne : j ≠ s.lastDisputeId + 1 := by omega
          simp only [hne, if_false]
          exact hmem
      · simp only [if_pos h1, if_neg h2]
        exact hmem
    · simp only [if_neg h1]
      exact hmem
  | vote t did v cnow =>
    show (vote_on_dispute s t did v cnow).2.disputes j = some d
    unfold vote_on_dispute
    cases hm : s.disputes did with
    | none =>
      simp only [hm]
      exact hmem
    | some d2 =>
      simp only [hm]
      by_cases h1 : is_valid_dispute_id s did
      · by_cases h2 : is_arbitrator s t = true
        · by_cases h3 : d2.status = "open"
          · by_cases h4 : cnow - d2.createdAt ≤ VOTING_PERIOD
            · by_cases h5 : has_voted s did t = true
              · simp only [if_pos h1, h2, if_true, if_pos h3, if_pos h4, h5,
                  not_true, ite_not, if_false]
                exact hmem
              · have h5f : has_voted s did t = false := by
                  cases hhv : has_voted s did t
                  · rfl
                  · exact absurd hhv h5
                simp only [if_pos h1, h2, if_true, if_pos h3, if_pos h4, h5f,
                  Bool.false_eq_true, not_false_iff, ite_not, if_false,
                  update_vote_count, hm]
                have hne : j ≠ did := by
                  intro hd
                  subst hd
                  rw [hmem] at hm
                  cases hm
                  exact hres h3
                simp only [hne, if_false]
                exact hmem
            · simp only [if_pos h1, h2, if_true, if_pos h3, if_neg h4]
              exact hmem
          · simp only [if_pos h1, h2, if_true, if_neg h3]
            exact hmem
        · have h2f : is_arbitrator s t = false := by
            cases hav : is_arbitrator s t
            · rfl
            · exact absurd hav h2
          simp only [if_pos h1, h2f, Bool.false_eq_true, if_false]
          exact hmem
      · simp only [if_neg h1]
        exact hmem
  | resolve did cnow =>
    show (resolve_dispute s did cnow).2.disputes j = some d
    unfold resolve_dispute
    cases hm : s.disputes did with
    | none =>
      simp only [hm]
      exact hmem
    | some d2 =>
      simp only [hm]
      by_cases h1 : is_valid_dispute_id s did
      · by_cases h3 : d2.status = "open"
        · by_cases h4 : d2.votesFor + d2.votesAgainst ≥ MIN_VOTES_REQUIRED
          · by_cases h5 : cnow - d2.createdAt ≤ VOTING_PERIOD
            · simp only [if_pos h1, if_pos h3, if_pos h4, if_pos h5]
              have hne : j ≠ did := by
                intro hd
                subst hd
                rw [hmem] at hm
                cases hm
                exact hres h3
              simp only [hne, if_false]
              exact hmem
            · simp only [if_pos h1, if_pos h3, if_pos h4, if_neg h5]
              exact hmem
          · simp only [if_pos h1, if_pos h3, if_neg h4]
            exact hmem
        · simp only [if_pos h1, if_neg h3]
          exact hmem
      · simp only [if_neg h1]
        exact hmem
  | addArb t a =>
    show (add_arbitrator s t a).2.disputes j = some d
    unfold add_arbitrator
    by_cases h1 : t = CONTRACT_OWNER
    · by_cases h2 : dr_is_valid_principal a
      · simp only [if_pos h1, if_pos h2]
        exact hmem
      · simp only [if_pos h1, if_neg h2]
        exact hmem
    · simp only [if_neg h1]
      exact hmem
  | removeArb t a =>
    show (remove_arbitrator s t a).2.disputes j = some d
    unfold remove_arbitrator
    by_cases h1 : t = CONTRACT_OWNER
    · by_cases h2 : dr_is_valid_principal a
      · simp only [if_pos h1, if_pos h2]
        exact hmem
      · simp only [if_pos h1, if_neg h2]
        exact hmem
    · simp only [if_neg h1]
      exact hmem
  | setReward t r =>
    show (set_arbitrator_reward s t r).2.disputes j = some d
    unfold set_arbitrator_reward
    by_cases h1 : t = CONTRACT_OWNER
    · by_cases h2 : r > 0
      · simp only [if_pos h1, if_pos h2]
        exact hmem
      · simp only [if_pos h1, if_neg h2]
        exact hmem
    · simp only [if_neg h1]
      exact hmem

/-- Under reachability, a whole call sequence leaves every stored non-Open
dispute record untouched. -/
theorem stepsD_keeps_dispute_closed (ops : List DOp) :
    ∀ (s : DState) (j : Nat) (d : Dispute), DInv s → s.disputes j = some d →
      d.status ≠ "open" → (stepsD ops s).disputes j = some d := by
  induction ops with
  | nil =>
    intro s j d _ hmem _
    exact hmem
  | cons op ops ih =>
    intro s j d hinv hmem hres
    exact ih _ j d (runD_preserves_DInv op s hinv)
      (runD_keeps_dispute_closed op s j d hinv hmem hres) hres

/-- No public call ever deletes or rewrites an existing vote record. -/
theorem runD_votes_persist (op : DOp) (s : DState) (i : Nat) (a : Principal)
    (v : Bool) (hv : s.arbitratorVotes i a = some v) :
    (runD op s).2.arbitratorVotes i a = some v := by
  cases op with
  | raise t eid cp reason cnow =>
    show (raise_dispute s t eid cp reason cnow).2.arbitratorVotes i a = some v
    unfold raise_dispute
    by_cases h1 : dr_is_valid_escrow_id eid
    · by_cases h2 : is_valid_reason reason
      · by_cases h3 : t = cp
        · simp only [if_pos h1, if_pos h2, h3, not_true, ite_not, if_false]
          exact hv
        · simp only [if_pos h1, if_pos h2, if_neg h3, ite_not, if_pos]
          exact hv
      · simp only [if_pos h1, if_neg h2]
        exact hv
    · simp only [if_neg h1]
      exact hv
  | vote t did vv cnow =>
    show (vote_on_dispute s t did vv cnow).2.arbitratorVotes i a = some v
    unfold vote_on_dispute
    cases hm : s.disputes did with
    | none =>
      simp only [hm]
      exact hv
    | some d2 =>
      simp only [hm]
      by_cases h1 : is_valid_dispute_id s did
      · by_cases h2 : is_arbitrator s t = true
        · by_cases h3 : d2.status = "open"
          · by_cases h4 : cnow - d2.createdAt ≤ VOTING_PERIOD
            · by_cases h5 : has_voted s did t = true
              · simp only [if_pos h1, h2, if_true, if_pos h3, if_pos h4, h5,
                  not_true, ite_not, if_false]
                exact hv
              · have h5f : has_voted s did t = false := by
                  cases hhv : has_voted s did t
                  · rfl
                  · exact absurd hhv h5
                simp only [if_pos h1, h2, if_true, if_pos h3, if_pos h4, h5f,
                  Bool.false_eq_true, not_false_iff, ite_not, if_false,
                  update_vote_count, hm]
                have hne : ¬ (i = did ∧ a = t) := by
                  rintro ⟨hdi, hat⟩
                  subst hdi
                  subst hat
                  unfold has_voted at h5f
                  rw [hv] at h5f
                  exact Bool.noConfusion h5f
                simp only [hne, if_false]
                exact hv
            · simp only [if_pos h1, h2, if_true, if_pos h3, if_neg h4]
              exact hv
          · simp only [if_pos h1, h2, if_true, if_neg h3]
            exact hv
        · have h2f : is_arbitrator s t = false := by
            cases hav : is_arbitrator s t
            · rfl
            · exact absurd hav h2
          simp only [if_pos h1, h2f, Bool.false_eq_true, if_false]
          exact hv
      · simp only [if_neg h1]
        exact hv
  | resolve did cnow =>
    show (resolve_dispute s did cnow).2.arbitratorVotes i a = some v
    unfold resolve_dispute
    cases hm : s.disputes did with
    | none =>
      simp only [hm]
      exact hv
    | some d2 =>
      simp only [hm]
      by_cases h1 : is_valid_dispute_id s did
      · by_cases h3 : d2.status = "open"
        · by_cases h4 : d2.votesFor + d2.votesAgainst ≥ MIN_VOTES_REQUIRED
          · by_cases h5 : cnow - d2.createdAt ≤ VOTING_PERIOD
            · simp only [if_pos h1, if_pos h3, if_pos h4, if_pos h5]
              exact hv
            · simp only [if_pos h1, if_pos h3, if_pos h4, if_neg h5]
              exact hv
          · simp only [if_pos h1, if_pos h3, if_neg h4]
            exact hv
        · simp only [if_pos h1, if_neg h3]
          exact hv
      · simp only [if_neg h1]
        exact hv
  | addArb t a2 =>
    show (add_arbitrator s t a2).2.arbitratorVotes i a = some v
    unfold add_arbitrator
    by_cases h1 : t = CONTRACT_OWNER
    · by_cases h2 : dr_is_valid_principal a2
      · simp only [if_pos h1, if_pos h2]
        exact hv
      · simp only [if_pos h1, if_neg h2]
        exact hv
    · simp only [if_neg h1]
      exact hv
  | removeArb t a2 =>
    show (remove_arbitrator s t a2).2.arbitratorVotes i a = some v
    unfold remove_arbitrator
    by_cases h1 : t = CONTRACT_OWNER
    · by_cases h2 : dr_is_valid_principal a2
      · simp only [if_pos h1, if_pos h2]
        exact hv
      · simp only [if_pos h1, if_neg h2]
        exact hv
    · simp only [if_neg h1]
      exact hv
  | setReward t r =>
    show (set_arbitrator_reward s t r).2.arbitratorVotes i a = some v
    unfold set_arbitrator_reward
    by_cases h1 : t = CONTRACT_OWNER
    · by_cases h2 : r > 0
      · simp only [if_pos h1, if_pos h2]
        exact hv
      · simp only [if_pos h1, if_neg h2]
        exact hv
    · simp only [if_neg h1]
      exact hv

end DisputeResolution

namespace EscrowService

/-- Any erring escrow call leaves the state untouched and carries a nested
`err` payload whose code lies in 100–107. -/
theorem runE_error_facts (eop : EOp) (s : VaultState) (p : CVal)
    (h : (runE eop s).1 = .error p) :
    (runE eop s).2 = s ∧ wrapsCodeIn 100 107 p = true := by
  cases eop with
  | create t sel amt cnow ok =>
    revert h
    show (create_escrow s t sel amt cnow ok).1 = .error p →
      (create_escrow s t sel amt cnow ok).2 = s ∧ wrapsCodeIn 100 107 p = true
    unfold create_escrow
    by_cases h1 : amt > 0
    · by_cases h2 : is_valid_seller t sel
      · by_cases h3 : ok = true
        · subst h3
          simp only [if_pos h1, if_pos h2, if_true]
          intro h
          exact Except.noConfusion h
        · have h3f : ok = false := by
            cases ok
            · rfl
            · exact absurd rfl h3
          subst h3f
          simp only [if_pos h1, if_pos h2, Bool.false_eq_true, if_false]
          intro h
          injection h with hp
          rw [← hp]
          exact ⟨by trivial, by decide⟩
      · simp only [if_pos h1, if_neg h2]
        intro h
        injection h with hp
        rw [← hp]
        exact ⟨by trivial, by decide⟩
    · simp only [if_neg h1]
      intro h
      injection h with hp
      rw [← hp]
      exact ⟨by trivial, by decide⟩
  | release t id cnow ok =>
    revert h
    show (release_funds s t id cnow ok).1 = .error p →
      (release_funds s t id cnow ok).2 = s ∧ wrapsCodeIn 100 107 p = true
    unfold release_funds
    by_cases h1 : is_valid_escrow_id s id
    · cases hm : s.escrows id with
      | none =>
        simp only [if_pos h1, hm]
        intro h
        injection h with hp
        rw [← hp]
        exact ⟨by trivial, by decide⟩
      | some e =>
        simp only [if_pos h1, hm]
        by_cases h2 : t = CONTRACT_OWNER ∨ t = e.buyer
        · by_cases h3 : e.state = "locked"
          · by_cases h4 : cnow ≤ e.expiresAt
            · by_cases h5 : ok = true
              · subst h5
                simp only [if_pos h2, if_pos h3, if_pos h4, if_true]
                intro h
                exact Except.noConfusion h
              · have h5f : ok = false := by
                  cases ok
                  · rfl
                  · exact absurd rfl h5
                subst h5f
                simp only [if_pos h2, if_pos h3, if_pos h4, Bool.false_eq_true,
                  if_false]
                intro h
                injection h with hp
                rw [← hp]
                exact ⟨by trivial, by decide⟩
            · simp only [if_pos h2, if_pos h3, if_neg h4]
              intro h
              injection h with hp
              rw [← hp]
              exact ⟨by trivial, by decide⟩
          · simp only [if_pos h2, if_neg h3]
            intro h
            injection h with hp
            rw [← hp]
            exact ⟨by trivial, by decide⟩
        · simp only [if_neg h2]
          intro h
          injection h with hp
          rw [← hp]
          exact ⟨by trivial, by decide⟩
    · simp only [if_neg h1]
      intro h
      injection h with hp
      rw [← hp]
      exact ⟨by trivial, by decide⟩
  | refund t id ok =>
    revert h
    show (refund_buyer s t id ok).1 = .error p →
      (refund_buyer s t id ok).2 = s ∧ wrapsCodeIn 100 107 p = true
    unfold refund_buyer
    by_cases h1 : is_valid_escrow_id s id
    · cases hm : s.escrows id with
      | none =>
        simp only [if_pos h1, hm]
        intro h
        injection h with hp
        rw [← hp]
        exact ⟨by trivial, by decide⟩
      | some e =>
        simp only [if_pos h1, hm]
        by_cases h2 : t = CONTRACT_OWNER
        · by_cases h3 : e.state = "locked"
          · by_cases h5 : ok = true
            · subst h5
              simp only [if_pos h2, if_pos h3, if_true]
              intro h
              exact Except.noConfusion h
            · have h5f : ok = false := by
                cases ok
                · rfl
                · exact absurd rfl h5
              subst h5f
              simp only [if_pos h2, if_pos h3, Bool.false_eq_true, if_false]
              intro h
              injection h with hp
              rw [← hp]
              exact ⟨by trivial, by decide⟩
          · simp only [if_pos h2, if_neg h3]
            intro h
            injection h with hp
            rw [← hp]
            exact ⟨by trivial, by decide⟩
        · simp only [if_neg h2]
          intro h
          injection h with hp
          rw [← hp]
          exact ⟨by trivial, by decide⟩
    · simp only [if_neg h1]
      intro h
      injection h with hp
      rw [← hp]
      exact ⟨by trivial, by decide⟩

end EscrowService

namespace DisputeResolution

/-- Any erring dispute call leaves the state untouched. -/
theorem runD_error_state (dop : DOp) (s : DState) (p : CVal)
    (h : (runD dop s).1 = .error p) : (runD dop s).2 = s := by
  cases dop with
  | raise t eid cp reason cnow =>
    revert h
    show (raise_dispute s t eid cp reason cnow).1 = .error p →
      (raise_dispute s t eid cp reason cnow).2 = s
    unfold raise_dispute
    by_cases h1 : dr_is_valid_escrow_id eid
    · by_cases h2 : is_valid_reason reason
      · by_cases h3 : t = cp
        · simp only [if_pos h1, if_pos h2, h3, not_true, ite_not, if_false]
          intro _
          trivial
        · simp only [if_pos h1, if_pos h2, if_neg h3, ite_not, if_pos]
          intro h
          exact Except.noConfusion h
      · simp only [if_pos h1, if_neg h2]
        intro _
        trivial
    · simp only [if_neg h1]
      intro _
      trivial
  | vote t did v cnow =>
    revert h
    show (vote_on_dispute s t did v cnow).1 = .error p →
      (vote_on_dispute s t did v cnow).2 = s
    unfold vote_on_dispute
    cases hm : s.disputes did with
    | none =>
      simp only [hm]
      intro _
      trivial
    | some d =>
      simp only [hm]
      by_cases h1 : is_valid_dispute_id s did
      · by_cases h2 : is_arbitrator s t = true
        · by_cases h3 : d.status = "open"
          · by_cases h4 : cnow - d.createdAt ≤ VOTING_PERIOD
            · by_cases h5 : has_voted s did t = true
              · simp only [if_pos h1, h2, if_true, if_pos h3, if_pos h4, h5,
                  not_true, ite_not, if_false]
                intro _
                trivial
              · have h5f : has_voted s did t = false := by
                  cases hhv : has_voted s did t
                  · rfl
                  · exact absurd hhv h5
                simp only [if_pos h1, h2, if_true, if_pos h3, if_pos h4, h5f,
                  Bool.false_eq_true, not_false_iff, ite_not, if_false,
                  update_vote_count, hm]
                intro h
                exact Except.noConfusion h
            · simp only [if_pos h1, h2, if_true, if_pos h3, if_neg h4]
              intro _
              trivial
          · simp only [if_pos h1, h2, if_true, if_neg h3]
            intro _
            trivial
        · have h2f : is_arbitrator s t = false := by
            cases hav : is_arbitrator s t
            · rfl
            · exact absurd hav h2
          simp only [if_pos h1, h2f, Bool.false_eq_true, if_false]
          intro _
          trivial
      · simp only [if_neg h1]
        intro _
        trivial
  | resolve did cnow =>
    revert h
    show (resolve_dispute s did cnow).1 = .error p →
      (resolve_dispute s did cnow).2 = s
    unfold resolve_dispute
    cases hm : s.disputes did with
    | none =>
      simp only [hm]
      intro _
      trivial
    | some d =>
      simp only [hm]
      by_cases h1 : is_valid_dispute_id s did
      · by_cases h3 : d.status = "open"
        · by_cases h4 : d.votesFor + d.votesAgainst ≥ MIN_VOTES_REQUIRED
          · by_cases h5 : cnow - d.createdAt ≤ VOTING_PERIOD
            · simp only [if_pos h1, if_pos h3, if_pos h4, if_pos h5]
              intro h
              exact Except.noConfusion h
            · simp only [if_pos h1, if_pos h3, if_pos h4, if_neg h5]
              intro _
              trivial
          · simp only [if_pos h1, if_pos h3, if_neg h4]
            intro _
            trivial
        · simp only [if_pos h1, if_neg h3]
          intro _
          trivial
      · simp only [if_neg h1]
        intro _
        trivial
  | addArb t a =>
    revert h
    show (add_arbitrator s t a).1 = .error p →
      (add_arbitrator s t a).2 = s
    unfold add_arbitrator
    by_cases h1 : t = CONTRACT_OWNER
    · by_cases h2 : dr_is_valid_principal a
      · simp only [if_pos h1, if_pos h2]
        intro h
        exact Except.noConfusion h
      · simp only [if_pos h1, if_neg h2]
        intro _
        trivial
    · simp only [if_neg h1]
      intro _
      trivial
  | removeArb t a =>
    revert h
    show (remove_arbitrator s t a).1 = .error p →
      (remove_arbitrator s t a).2 = s
    unfold remove_arbitrator
    by_cases h1 : t = CONTRACT_OWNER
    · by_cases h2 : dr_is_valid_principal a
      · simp only [if_pos h1, if_pos h2]
        intro h
        exact Except.noConfusion h
      · simp only [if_pos h1, if_neg h2]
        intro _
        trivial
    · simp only [if_neg h1]
      intro _
      trivial
  | setReward t r =>
    revert h
    show (set_arbitrator_reward s t r).1 = .error p →
      (set_arbitrator_reward s t r).2 = s
    unfold set_arbitrator_reward
    by_cases h1 : t = CONTRACT_OWNER
    · by_cases h2 : r > 0
      · simp only [if_pos h1, if_pos h2]
        intro h
        exact Except.noConfusion h
      · simp only [if_pos h1, if_neg h2]
        intro _
        trivial
    · simp only [if_neg h1]
      intro _
      trivial

end DisputeResolution

/-! ## Claim theorems -/

open EscrowService DisputeResolution CoreMarketPlace

/-- C1: at every reachable state the vault's custodial balance equals the
sum of `amount` over all Locked escrows; a successful `create-escrow` adds
the amount to the vault and records a Locked escrow in the same step, and
after a successful `release-funds` or `refund-buyer` the settled escrow
contributes nothing to the Locked sum while the balance equation still
holds. -/
theorem escrow_vault_balance_invariant (s : VaultState) (t sel rt ft : Principal)
    (amt cnow rid rnow fid : Nat) (h : EReachable s) :
    s.vaultBalance = lockedSum s
    ∧ ((create_escrow s t sel amt cnow true).1 = .ok (.vUint (s.lastEscrowId + 1)) →
        (create_escrow s t sel amt cnow true).2.vaultBalance = s.vaultBalance + amt ∧
        (create_escrow s t sel amt cnow true).2.escrows (s.lastEscrowId + 1) =
          some { buyer := t, seller := sel, amount := amt, state := "locked",
                 createdAt := cnow, expiresAt := cnow + ESCROW_DURATION })
    ∧ (isErr (release_funds s rt rid rnow true).1 = false →
        lockedAmount (release_funds s rt rid rnow true).2 rid = 0 ∧
        (release_funds s rt rid rnow true).2.vaultBalance =
          lockedSum (release_funds s rt rid rnow true).2)
    ∧ (isErr (refund_buyer s ft fid true).1 = false →
        lockedAmount (refund_buyer s ft fid true).2 fid = 0 ∧
        (refund_buyer s ft fid true).2.vaultBalance =
          lockedSum (refund_buyer s ft fid true).2) := by
  have hinv := EReachable_EInv s h
  refine ⟨hinv.2, ?_, ?_, ?_⟩
  · intro hok
    unfold create_escrow at hok ⊢
    by_cases h1 : amt > 0
    · by_cases h2 : is_valid_seller t sel
      · simp only [if_pos h1, if_pos h2, if_true]
        exact ⟨by trivial, by simp⟩
      · simp only [if_pos h1, if_neg h2] at hok
        exact absurd hok (by simp)
    · simp only [if_neg h1] at hok
      exact absurd hok (by simp)
  · intro hok
    have hinv2 := release_funds_preserves_EInv s rt rid rnow true hinv
    refine ⟨?_, hinv2.2⟩
    unfold release_funds at hok ⊢
    by_cases h1 : is_valid_escrow_id s rid
    · cases hm : s.escrows rid with
      | none =>
        rw [if_pos h1] at hok
        simp only [hm] at hok
        exact absurd hok (by simp [isErr])
      | some e =>
        rw [if_pos h1] at hok ⊢
        simp only [hm] at hok ⊢
        by_cases h2 : rt = EscrowService.CONTRACT_OWNER ∨ rt = e.buyer
        · by_cases h3 : e.state = "locked"
          · by_cases h4 : rnow ≤ e.expiresAt
            · simp only [if_pos h2, if_pos h3, if_pos h4, if_true]
              unfold lockedAmount
              simp
            · simp only [if_pos h2, if_pos h3, if_neg h4] at hok
              exact absurd hok (by simp [isErr])
          · simp only [if_pos h2, if_neg h3] at hok
            exact absurd hok (by simp [isErr])
        · simp only [if_neg h2] at hok
          exact absurd hok (by simp [isErr])
    · rw [if_neg h1] at hok
      exact absurd hok (by simp [isErr])
  · intro hok
    have hinv2 := refund_buyer_preserves_EInv s ft fid true hinv
    refine ⟨?_, hinv2.2⟩
    unfold refund_buyer at hok ⊢
    by_cases h1 : is_valid_escrow_id s fid
    · cases hm : s.escrows fid with
      | none =>
        rw [if_pos h1] at hok
        simp only [hm] at hok
        exact absurd hok (by simp [isErr])
      | some e =>
        rw [if_pos h1] at hok ⊢
        simp only [hm] at hok ⊢
        by_cases h2 : ft = EscrowService.CONTRACT_OWNER
        · by_cases h3 : e.state = "locked"
          · simp only [if_pos h2, if_pos h3, if_true]
            unfold lockedAmount
            simp
          · simp only [if_pos h2, if_neg h3] at hok
            exact absurd hok (by simp [isErr])
        · simp only [if_neg h2] at hok
          exact absurd hok (by simp [isErr])
    · rw [if_neg h1] at hok
      exact absurd hok (by simp [isErr])

/-- Witness for C1 on the reachable state left by creating and then
releasing one escrow. -/
theorem escrow_vault_balance_invariant_witness :
    EReachable (stepsE wEOps initE) ∧
    (stepsE wEOps initE).vaultBalance = lockedSum (stepsE wEOps initE) :=
  ⟨⟨wEOps, rfl⟩,
    (escrow_vault_balance_invariant (stepsE wEOps initE) 2 3 2 0 5 0 1 0 1
      ⟨wEOps, rfl⟩).1⟩

/-- C2: an Open dispute whose total vote count has reached the quorum of 3
and whose voting window is still open is resolved successfully: its status
becomes "resolved" and the returned resolution is "for_initiator" exactly
when votes_for exceeds votes_against, and "for_counterparty" otherwise,
ties included. -/
theorem resolve_dispute_majority_rule (s : DState) (d : Dispute) (id cnow : Nat)
    (hmem : s.disputes id = some d) (hid : id ≤ s.lastDisputeId)
    (hopen : d.status = "open")
    (hquorum : d.votesFor + d.votesAgainst ≥ MIN_VOTES_REQUIRED)
    (hwindow : cnow - d.createdAt ≤ VOTING_PERIOD) :
    (resolve_dispute s id cnow).1 =
      .ok (.vStr (if d.votesFor > d.votesAgainst then "for_initiator"
                  else "for_counterparty"))
    ∧ (resolve_dispute s id cnow).2.disputes id =
      some { d with
             status := "resolved"
             resolution := some (if d.votesFor > d.votesAgainst then "for_initiator"
                                 else "for_counterparty") }
    ∧ ((resolve_dispute s id cnow).1 = .ok (.vStr "for_initiator") ↔
        d.votesFor > d.votesAgainst)
    ∧ (d.votesFor = d.votesAgainst →
        (resolve_dispute s id cnow).1 = .ok (.vStr "for_counterparty")) := by
  have hvalid : is_valid_dispute_id s id := hid
  unfold resolve_dispute
  simp only [hmem, if_pos hvalid, if_pos hopen, if_pos hquorum, if_pos hwindow]
  refine ⟨by trivial, by simp, ?_, ?_⟩
  · by_cases hgt : d.votesFor > d.votesAgainst
    · simp [hgt]
    · simp only [hgt, if_false, iff_false]
      intro hcontra
      have hstr : ("for_counterparty" : String) = "for_initiator" := by
        injection hcontra with hh
        injection hh
      exact absurd hstr (by decide)
  · intro heq
    have hngt : ¬ d.votesFor > d.votesAgainst := by omega
    simp [hngt]

/-- Witness for C2 on a dispute with an exact 2–2 tie. -/
theorem resolve_dispute_majority_rule_witness :
    wTieState.disputes 1 = some wTieDispute ∧
    1 ≤ wTieState.lastDisputeId ∧
    wTieDispute.status = "open" ∧
    wTieDispute.votesFor + wTieDispute.votesAgainst ≥ MIN_VOTES_REQUIRED ∧
    10 - wTieDispute.createdAt ≤ VOTING_PERIOD ∧
    (resolve_dispute wTieState 1 10).1 = .ok (.vStr "for_counterparty") :=
  ⟨rfl, by decide, rfl, by decide, by decide,
    (resolve_dispute_majority_rule wTieState wTieDispute 1 10 rfl (by decide)
      rfl (by decide) (by decide)).2.2.2 rfl⟩

/-- C10: in every reachable dispute state, calling `vote-on-dispute` or
`resolve-dispute` with a dispute id above the last assigned one fails with
NotFound (101), and neither call can ever return InvalidDisputeId (111):
the map lookup is unwrapped before the `is-valid-dispute-id` assertion. -/
theorem invalid_dispute_id_unreachable (s : DState) (t : Principal)
    (id : Nat) (v : Bool) (cnow : Nat) (h : DReachable s) :
    (s.lastDisputeId < id →
      vote_on_dispute s t id v cnow = (.error ERR_DISPUTE_NOT_FOUND, s) ∧
      resolve_dispute s id cnow = (.error ERR_DISPUTE_NOT_FOUND, s))
    ∧ (vote_on_dispute s t id v cnow).1 ≠ .error ERR_INVALID_DISPUTE_ID
    ∧ (resolve_dispute s id cnow).1 ≠ .error ERR_INVALID_DISPUTE_ID := by
  have hinv := DReachable_DInv s h
  refine ⟨?_, ?_, ?_⟩
  · intro hgt
    have hm := hinv id hgt
    constructor
    · unfold vote_on_dispute
      simp only [hm]
    · unfold resolve_dispute
      simp only [hm]
  · unfold vote_on_dispute
    cases hm : s.disputes id with
    | none =>
      simp only [hm]
      decide
    | some d =>
      have hvalid : is_valid_dispute_id s id := by
        by_contra hnv
        have hgt : s.lastDisputeId < id := by
          unfold is_valid_dispute_id at hnv
          omega
        rw [hinv id hgt] at hm
        exact Option.noConfusion hm
      simp only [hm, if_pos hvalid]
      by_cases h2 : is_arbitrator s t = true
      · by_cases h3 : d.status = "open"
        · by_cases h4 : cnow - d.createdAt ≤ VOTING_PERIOD
          · by_cases h5 : has_voted s id t = true
            · simp only [h2, if_true, if_pos h3, if_pos h4, h5, not_true,
                ite_not, if_false]
              decide
            · have h5f : has_voted s id t = false := by
                cases hhv : has_voted s id t
                · rfl
                · exact absurd hhv h5
              simp only [h2, if_true, if_pos h3, if_pos h4, h5f,
                Bool.false_eq_true, not_false_iff, ite_not, if_false,
                update_vote_count, hm]
              simp
          · simp only [h2, if_true, if_pos h3, if_neg h4]
            decide
        · simp only [h2, if_true, if_neg h3]
          decide
      · have h2f : is_arbitrator s t = false := by
          cases hav : is_arbitrator s t
          · rfl
          · exact absurd hav h2
        simp only [h2f, Bool.false_eq_true, if_false]
        decide
  · unfold resolve_dispute
    cases hm : s.disputes id with
    | none =>
      simp only [hm]
      decide
    | some d =>
      have hvalid : is_valid_dispute_id s id := by
        by_contra hnv
        have hgt : s.lastDisputeId < id := by
          unfold is_valid_dispute_id at hnv
          omega
        rw [hinv id hgt] at hm
        exact Option.noConfusion hm
      simp only [hm, if_pos hvalid]
      by_cases h3 : d.status = "open"
      · by_cases h4 : d.votesFor + d.votesAgainst ≥ MIN_VOTES_REQUIRED
        · by_cases h5 : cnow - d.createdAt ≤ VOTING_PERIOD
          · simp only [if_pos h3, if_pos h4, if_pos h5]
            simp
          · simp only [if_pos h3, if_pos h4, if_neg h5]
            decide
        · simp only [if_pos h3, if_neg h4]
          decide
      · simp only [if_neg h3]
        decide

/-- C3: `release-funds` fails on an out-of-range or missing escrow id;
given an existing escrow, it fails with NotAuthorized unless the caller is
the buyer or the Owner, with AlreadyReleased unless the state is Locked,
with Expired when the clock has passed `expires-at`, and with
TransferFailed (leaving the state unchanged) when the vault-to-seller
transfer fails; it succeeds exactly when all conditions hold, and then
marks the escrow "released". -/
theorem release_funds_spec (s : VaultState) (t : Principal) (id cnow : Nat)
    (ok : Bool) (e : Escrow) :
    (¬ id ≤ s.lastEscrowId →
      release_funds s t id cnow ok =
        (.error EscrowService.ERR_INVALID_ESCROW_ID, s))
    ∧ (id ≤ s.lastEscrowId → s.escrows id = none →
      release_funds s t id cnow ok = (.error ERR_ESCROW_NOT_FOUND, s))
    ∧ (id ≤ s.lastEscrowId → s.escrows id = some e →
    (¬ (t = EscrowService.CONTRACT_OWNER ∨ t = e.buyer) →
      release_funds s t id cnow ok = (.error EscrowService.ERR_NOT_AUTHORIZED, s))
    ∧ ((t = EscrowService.CONTRACT_OWNER ∨ t = e.buyer) → e.state ≠ "locked" →
      release_funds s t id cnow ok = (.error ERR_ALREADY_RELEASED, s))
    ∧ ((t = EscrowService.CONTRACT_OWNER ∨ t = e.buyer) → e.state = "locked" →
      ¬ cnow ≤ e.expiresAt →
      release_funds s t id cnow ok = (.error ERR_ESCROW_EXPIRED, s))
    ∧ ((t = EscrowService.CONTRACT_OWNER ∨ t = e.buyer) → e.state = "locked" →
      cnow ≤ e.expiresAt → ok = false →
      release_funds s t id cnow ok = (.error ERR_TRANSFER_FAILED, s))
    ∧ ((t = EscrowService.CONTRACT_OWNER ∨ t = e.buyer) → e.state = "locked" →
      cnow ≤ e.expiresAt → ok = true →
      (release_funds s t id cnow ok).1 = .ok (.vBool true) ∧
      (release_funds s t id cnow ok).2.escrows id =
        some { e with state := "released" })
    ∧ ((release_funds s t id cnow ok).1 = .ok (.vBool true) ↔
      ((t = EscrowService.CONTRACT_OWNER ∨ t = e.buyer) ∧ e.state = "locked" ∧
        cnow ≤ e.expiresAt ∧ ok = true))) := by
  refine ⟨?_, ?_, ?_⟩
  · intro hnid
    have hnv : ¬ is_valid_escrow_id s id := hnid
    unfold release_funds
    rw [if_neg hnv]
  · intro hid hnone
    unfold release_funds
    have hvalid : is_valid_escrow_id s id := hid
    simp only [if_pos hvalid, hnone]
  intro hid hmem
  have hvalid : is_valid_escrow_id s id := hid
  unfold release_funds
  simp only [if_pos hvalid, hmem]
  refine ⟨?_, ?_, ?_, ?_, ?_, ?_⟩
  · intro h2
    rw [if_neg h2]
  · intro h2 h3
    rw [if_pos h2, if_neg h3]
  · intro h2 h3 h4
    rw [if_pos h2, if_pos h3, if_neg h4]
  · intro h2 h3 h4 h5
    subst h5
    rw [if_pos h2, if_pos h3, if_pos h4]
    simp only [Bool.false_eq_true, if_false]
  · intro h2 h3 h4 h5
    subst h5
    rw [if_pos h2, if_pos h3, if_pos h4, if_pos rfl]
    exact ⟨rfl, by simp⟩
  · constructor
    · intro hok
      by_cases h2 : t = EscrowService.CONTRACT_OWNER ∨ t = e.buyer
      · by_cases h3 : e.state = "locked"
        · by_cases h4 : cnow ≤ e.expiresAt
          · cases hko : ok with
            | true => exact ⟨h2, h3, h4, rfl⟩
            | false =>
              subst hko
              rw [if_pos h2, if_pos h3, if_pos h4] at hok
              simp at hok
          · rw [if_pos h2, if_pos h3, if_neg h4] at hok
            simp at hok
        · rw [if_pos h2, if_neg h3] at hok
          simp at hok
      · rw [if_neg h2] at hok
        simp at hok
    · rintro ⟨h2, h3, h4, h5⟩
      subst h5
      rw [if_pos h2, if_pos h3, if_pos h4, if_pos rfl]

/-- Witness for C3: the buyer releases a locked escrow before expiry. -/
theorem release_funds_spec_witness :
    1 ≤ wVaultState.lastEscrowId ∧
    wVaultState.escrows 1 = some wLockedEscrow ∧
    (release_funds wVaultState 2 1 50 true).1 = .ok (.vBool true) :=
  ⟨by decide, rfl,
    (((release_funds_spec wVaultState 2 1 50 true wLockedEscrow).2.2
      (by decide) rfl).2.2.2.2.1 (Or.inr rfl) rfl (by decide) rfl).1⟩

/-- C4: given an existing escrow, `refund-buyer` fails with NotAuthorized
for every caller other than the Owner (the buyer included) and requires
the state to be Locked; it checks no expiry condition — the source reads
neither the clock nor `expires-at`, so the conclusion holds even under the
extra hypothesis that the current height `bh` is past the escrow's
expiry — and on success pays the amount out of the vault to the buyer and
marks the escrow "refunded". -/
theorem refund_buyer_owner_only (s : VaultState) (t : Principal) (id : Nat)
    (ok : Bool) (e : Escrow) (hid : id ≤ s.lastEscrowId)
    (hmem : s.escrows id = some e) (bh : Nat)
    (hpast : e.expiresAt < bh) :
    (t ≠ EscrowService.CONTRACT_OWNER →
      refund_buyer s t id ok = (.error EscrowService.ERR_NOT_AUTHORIZED, s))
    ∧ (t = EscrowService.CONTRACT_OWNER → e.state ≠ "locked" →
      refund_buyer s t id ok = (.error ERR_ALREADY_RELEASED, s))
    ∧ (t = EscrowService.CONTRACT_OWNER → e.state = "locked" → ok = true →
      (refund_buyer s t id ok).1 = .ok (.vBool true) ∧
      (refund_buyer s t id ok).2.escrows id =
        some { e with state := "refunded" } ∧
      (refund_buyer s t id ok).2.vaultBalance = s.vaultBalance - e.amount)
    ∧ ((refund_buyer s t id ok).1 = .ok (.vBool true) ↔
      (t = EscrowService.CONTRACT_OWNER ∧ e.state = "locked" ∧ ok = true)) := by
  have hvalid : is_valid_escrow_id s id := hid
  unfold refund_buyer
  simp only [if_pos hvalid, hmem]
  refine ⟨?_, ?_, ?_, ?_⟩
  · intro h2
    rw [if_neg h2]
  · intro h2 h3
    rw [if_pos h2, if_neg h3]
  · intro h2 h3 h5
    subst h5
    rw [if_pos h2, if_pos h3, if_pos rfl]
    exact ⟨rfl, by simp, rfl⟩
  · constructor
    · intro hok
      by_cases h2 : t = EscrowService.CONTRACT_OWNER
      · by_cases h3 : e.state = "locked"
        · cases hko : ok with
          | true => exact ⟨h2, h3, rfl⟩
          | false =>
            subst hko
            rw [if_pos h2, if_pos h3] at hok
            simp at hok
        · rw [if_pos h2, if_neg h3] at hok
          simp at hok
      · rw [if_neg h2] at hok
        simp at hok
    · rintro ⟨h2, h3, h5⟩
      subst h5
      rw [if_pos h2, if_pos h3, if_pos rfl]

/-- Witness for C4: the buyer's own refund attempt is rejected while the
Owner's succeeds, on the same locked escrow. -/
theorem refund_buyer_owner_only_witness :
    wVaultState.escrows 1 = some wLockedEscrow ∧
    wLockedEscrow.buyer = 2 ∧
    refund_buyer wVaultState 2 1 true =
      (.error EscrowService.ERR_NOT_AUTHORIZED, wVaultState) ∧
    (refund_buyer wVaultState EscrowService.CONTRACT_OWNER 1 true).1 =
      .ok (.vBool true) :=
  ⟨rfl, rfl,
    (refund_buyer_owner_only wVaultState 2 1 true wLockedEscrow (by decide)
      rfl 2000 (by decide)).1 (by decide),
    ((refund_buyer_owner_only wVaultState EscrowService.CONTRACT_OWNER 1 true
      wLockedEscrow (by decide) rfl 2000 (by decide)).2.2.1 rfl rfl rfl).1⟩

/-- C5: terminal states are absorbing: from any reachable vault state, a
Released or Refunded escrow record is never changed by any further call
sequence, and from any reachable dispute state, a Resolved dispute record
(its status, tallies and resolution included) is never changed by any
further call sequence. -/
theorem terminal_states_absorbing (s : VaultState) (ds : DState)
    (ops : List EOp) (dops : List DOp) (i j : Nat) (e : Escrow) (d : Dispute)
    (hs : EReachable s) (hd : DReachable ds) :
    (s.escrows i = some e → (e.state = "released" ∨ e.state = "refunded") →
      (stepsE ops s).escrows i = some e)
    ∧ (ds.disputes j = some d → d.status = "resolved" →
      (stepsD dops ds).disputes j = some d) := by
  constructor
  · intro hmem hterm
    have hne : e.state ≠ "locked" := by
      rcases hterm with h | h <;> rw [h] <;> decide
    exact stepsE_keeps_escrow_terminal ops s i e (EReachable_EInv s hs) hmem hne
  · intro hmem hres
    have hne : d.status ≠ "open" := by
      rw [hres]
      decide
    exact stepsD_keeps_dispute_closed dops ds j d (DReachable_DInv ds hd) hmem hne

/-- Witness for C5 on a released escrow hit by a refund attempt and a
resolved dispute hit by a further vote. -/
theorem terminal_states_absorbing_witness :
    EReachable (stepsE wEOps initE) ∧
    (stepsE wEOps initE).escrows 1 = some wReleasedEscrow ∧
    DReachable (stepsD wDOps initD) ∧
    (stepsD wDOps initD).disputes 1 = some wResolvedDispute ∧
    (stepsE [.refund 0 1 true] (stepsE wEOps initE)).escrows 1 =
      some wReleasedEscrow ∧
    (stepsD [.vote 5 1 true 3] (stepsD wDOps initD)).disputes 1 =
      some wResolvedDispute := by
  have hm1 : (stepsE wEOps initE).escrows 1 = some wReleasedEscrow := by decide
  have hm2 : (stepsD wDOps initD).disputes 1 = some wResolvedDispute := by decide
  have h := terminal_states_absorbing (stepsE wEOps initE) (stepsD wDOps initD)
    [.refund 0 1 true] [.vote 5 1 true 3] 1 1 wReleasedEscrow wResolvedDispute
    ⟨wEOps, rfl⟩ ⟨wDOps, rfl⟩
  exact ⟨⟨wEOps, rfl⟩, hm1, ⟨wDOps, rfl⟩, hm2,
    h.1 hm1 (Or.inl rfl), h.2 hm2 rfl⟩

/-- C7: every erring call of either contract leaves the persisted state
exactly as it was; in particular `create-escrow` with a failed incoming
transfer returns an error, records nothing and leaves the id counter
alone. -/
theorem errors_leave_state_unchanged (eop : EOp) (s : VaultState)
    (dop : DOp) (ds : DState) (t sel : Principal) (amt cnow : Nat) :
    (isErr (runE eop s).1 = true → (runE eop s).2 = s)
    ∧ (isErr (runD dop ds).1 = true → (runD dop ds).2 = ds)
    ∧ isErr (create_escrow s t sel amt cnow false).1 = true
    ∧ (create_escrow s t sel amt cnow false).2 = s := by
  have hise : isErr (create_escrow s t sel amt cnow false).1 = true := by
    unfold create_escrow
    by_cases h1 : amt > 0
    · by_cases h2 : is_valid_seller t sel
      · simp only [if_pos h1, if_pos h2, Bool.false_eq_true, if_false]
        rfl
      · simp only [if_pos h1, if_neg h2]
        rfl
    · simp only [if_neg h1]
      rfl
  refine ⟨?_, ?_, hise, ?_⟩
  · intro h
    cases hr : (runE eop s).1 with
    | error p => exact (runE_error_facts eop s p hr).1
    | ok v =>
      rw [hr] at h
      simp [isErr] at h
  · intro h
    cases hr : (runD dop ds).1 with
    | error p => exact runD_error_state dop ds p hr
    | ok v =>
      rw [hr] at h
      simp [isErr] at h
  · cases hr : (create_escrow s t sel amt cnow false).1 with
    | error p =>
      exact (runE_error_facts (.create t sel amt cnow false) s p hr).1
    | ok v =>
      rw [hr] at hise
      simp [isErr] at hise

/-- Witness for C7: an unauthorized reward update and a zero-amount escrow
creation both fail and leave their states untouched. -/
theorem errors_leave_state_unchanged_witness :
    isErr (runD (.setReward 5 0) initD).1 = true ∧
    (runD (.setReward 5 0) initD).2 = initD ∧
    isErr (create_escrow initE 2 3 0 0 false).1 = true ∧
    (create_escrow initE 2 3 0 0 false).2 = initE := by
  have h := errors_leave_state_unchanged (.create 2 3 0 0 false) initE
    (.setReward 5 0) initD 2 3 0 0
  exact ⟨by decide, h.2.1 (by decide), h.2.2.1, h.2.2.2⟩

/-- C8 counterexample: `create-escrow` with amount 0 returns the nested
response `(err (err u105))` — its error value is `(err u105)`, not the
bare numeric code 105 that the claim asserts. -/
theorem escrow_error_value_not_bare_code :
    (create_escrow initE 2 3 0 0 false).1 = .error (.vErr (.vUint 105)) ∧
    CVal.vErr (.vUint 105) ≠ .vUint 105 :=
  ⟨rfl, by decide⟩

/-- C8 (amended): every error result of the escrow public operations
carries its numeric code doubly wrapped — the error payload is itself an
`err` response holding one of the codes 100–107, never a bare uint. -/
theorem escrow_errors_double_wrapped (eop : EOp) (s : VaultState) (p : CVal)
    (h : (runE eop s).1 = .error p) : wrapsCodeIn 100 107 p = true :=
  (runE_error_facts eop s p h).2

/-- Witness for C8 (amended) on the zero-amount creation. -/
theorem escrow_errors_double_wrapped_witness :
    (runE (.create 2 3 0 0 false) initE).1 = .error (.vErr (.vUint 105)) ∧
    wrapsCodeIn 100 107 (.vErr (.vUint 105)) = true :=
  ⟨rfl, escrow_errors_double_wrapped (.create 2 3 0 0 false) initE
    (.vErr (.vUint 105)) rfl⟩

/-- C6 counterexample: a second vote by the same arbitrator on the same
dispute after the voting window has lapsed returns VotingClosed (105),
not AlreadyVoted (104) as the claim asserts for any second vote. -/
theorem second_vote_after_window_not_already_voted :
    has_voted wVotedState 1 5 = true ∧
    (vote_on_dispute wVotedState 5 1 true 200).1 = .error ERR_VOTING_CLOSED ∧
    ERR_VOTING_CLOSED ≠ ERR_ALREADY_VOTED :=
  ⟨rfl, by decide, by decide⟩

/-- C6 (amended): at most one vote is ever counted per
(dispute, arbitrator) pair.  Any second vote by an arbitrator who already
has a vote record fails and leaves the whole state (both tallies included)
unchanged; it fails with AlreadyVoted precisely when it passes the earlier
guards (dispute exists, id in range, caller still an arbitrator, status
Open, window open) and can otherwise fail with an earlier guard's error; a
first vote is recorded and bumps exactly the matching tally; and no call
ever erases a vote record. -/
theorem vote_counted_at_most_once (s : DState) (t : Principal) (id : Nat)
    (v : Bool) (cnow : Nat) (d : Dispute) (dop : DOp) (pv : Bool) :
    (has_voted s id t = true →
      isErr (vote_on_dispute s t id v cnow).1 = true ∧
      (vote_on_dispute s t id v cnow).2 = s)
    ∧ (s.disputes id = some d → id ≤ s.lastDisputeId →
      is_arbitrator s t = true → d.status = "open" →
      cnow - d.createdAt ≤ VOTING_PERIOD → has_voted s id t = true →
      (vote_on_dispute s t id v cnow).1 = .error ERR_ALREADY_VOTED)
    ∧ (s.disputes id = some d → id ≤ s.lastDisputeId →
      is_arbitrator s t = true → d.status = "open" →
      cnow - d.createdAt ≤ VOTING_PERIOD → has_voted s id t = false →
      (vote_on_dispute s t id v cnow).1 = .ok (.vBool true) ∧
      (vote_on_dispute s t id v cnow).2.arbitratorVotes id t = some v ∧
      (vote_on_dispute s t id v cnow).2.disputes id =
        some { d with
               votesFor := if v then d.votesFor + 1 else d.votesFor
               votesAgainst := if v then d.votesAgainst else d.votesAgainst + 1 })
    ∧ (s.arbitratorVotes id t = some pv →
      (runD dop s).2.arbitratorVotes id t = some pv) := by
  refine ⟨?_, ?_, ?_, ?_⟩
  · intro hv
    have herr : isErr (vote_on_dispute s t id v cnow).1 = true := by
      unfold vote_on_dispute
      cases hm : s.disputes id with
      | none => rfl
      | some d2 =>
        by_cases h1 : is_valid_dispute_id s id
        · by_cases h2 : is_arbitrator s t = true
          · by_cases h3 : d2.status = "open"
            · by_cases h4 : cnow - d2.createdAt ≤ VOTING_PERIOD
              · simp only [if_pos h1, h2, if_true, if_pos h3, if_pos h4, hv,
                  not_true, ite_not, if_false]
                rfl
              · simp only [if_pos h1, h2, if_true, if_pos h3, if_neg h4]
                rfl
            · simp only [if_pos h1, h2, if_true, if_neg h3]
              rfl
          · have h2f : is_arbitrator s t = false := by
              cases hav : is_arbitrator s t
              · rfl
              · exact absurd hav h2
            simp only [if_pos h1, h2f, Bool.false_eq_true, if_false]
            rfl
        · simp only [if_neg h1]
          rfl
    refine ⟨herr, ?_⟩
    cases hr : (vote_on_dispute s t id v cnow).1 with
    | error p => exact runD_error_state (.vote t id v cnow) s p hr
    | ok vv =>
      rw [hr] at herr
      simp [isErr] at herr
  · intro hmem hid harb hopen hwin hv
    have hvalid : is_valid_dispute_id s id := hid
    unfold vote_on_dispute
    simp only [hmem, if_pos hvalid, harb, if_true, if_pos hopen, if_pos hwin,
      hv, not_true, ite_not, if_false]
  · intro hmem hid harb hopen hwin hv
    have hvalid : is_valid_dispute_id s id := hid
    unfold vote_on_dispute
    simp only [hmem, if_pos hvalid, harb, if_true, if_pos hopen, if_pos hwin,
      hv, Bool.false_eq_true, not_false_iff, ite_not, if_false,
      update_vote_count]
    refine ⟨by trivial, by simp, by simp⟩
  · exact runD_votes_persist dop s id t pv

/-- Witness for C6 on a second vote inside the window, which does return
AlreadyVoted. -/
theorem vote_counted_at_most_once_witness :
    has_voted wVotedState 1 5 = true ∧
    (vote_on_dispute wVotedState 5 1 true 10).1 = .error ERR_ALREADY_VOTED :=
  ⟨rfl,
    (vote_counted_at_most_once wVotedState 5 1 true 10 wVotedDispute
      (.resolve 1 10) true).2.1 rfl (by decide) rfl rfl (by decide) rfl⟩

/-- C9 (spec-modelled): a successful purchase marks the listing Sold; a
second purchase of the same listing then fails with InvalidStatus (106),
whatever the clock says, because the status check precedes the temporal
check; purchasing a non-Active (sold or cancelled) listing fails with
InvalidStatus even when it is also expired; and purchasing a still-Active
listing past its expiry fails with Expired (105), not InvalidStatus. -/
theorem purchase_listing_sold_once (s : MState) (t t2 : Principal)
    (id cnow cnow2 : Nat) (ok2 : Bool) (l : Listing)
    (hid : id ≤ s.lastListingId) (hmem : s.listings id = some l) :
    (l.status = "active" → cnow ≤ l.expiresAt →
      (purchase_listing s t id cnow true).1 = .ok (.vBool true) ∧
      (purchase_listing s t id cnow true).2.listings id =
        some { l with status := "sold" } ∧
      (purchase_listing (purchase_listing s t id cnow true).2 t2 id cnow2
        ok2).1 = .error ERR_INVALID_STATUS)
    ∧ (l.status ≠ "active" →
      purchase_listing s t id cnow ok2 = (.error ERR_INVALID_STATUS, s))
    ∧ (l.status = "active" → ¬ cnow ≤ l.expiresAt →
      purchase_listing s t id cnow ok2 = (.error ERR_LISTING_EXPIRED, s)) := by
  refine ⟨?_, ?_, ?_⟩
  · intro hact hexp
    unfold purchase_listing
    simp only [if_pos hid, hmem, if_pos hact, if_pos hexp, if_true]
    refine ⟨by trivial, by simp, ?_⟩
    simp [hid]
  · intro hnact
    unfold purchase_listing
    simp only [if_pos hid, hmem, if_neg hnact]
  · intro hact hnexp
    unfold purchase_listing
    simp only [if_pos hid, hmem, if_pos hact, if_neg hnexp]

/-- Witness for C9: a purchase succeeds and the immediate re-purchase is
rejected with InvalidStatus. -/
theorem purchase_listing_sold_once_witness :
    1 ≤ wMState.lastListingId ∧
    wMState.listings 1 = some wActiveListing ∧
    wActiveListing.status = "active" ∧
    (50 : Nat) ≤ wActiveListing.expiresAt ∧
    (purchase_listing wMState 4 1 50 true).1 = .ok (.vBool true) ∧
    (purchase_listing (purchase_listing wMState 4 1 50 true).2 6 1 50
      true).1 = .error ERR_INVALID_STATUS := by
  have h := (purchase_listing_sold_once wMState 4 6 1 50 50 true
    wActiveListing (by decide) rfl).1 rfl (by decide)
  exact ⟨by decide, rfl, rfl, by decide, h.1, h.2.2⟩

/-- Witness for C10 at the deployment state with an out-of-range id. -/
theorem invalid_dispute_id_unreachable_witness :
    DReachable initD ∧ initD.lastDisputeId < 1 ∧
    vote_on_dispute initD 5 1 true 0 = (.error ERR_DISPUTE_NOT_FOUND, initD) :=
  ⟨⟨[], rfl⟩, by decide,
    ((invalid_dispute_id_unreachable initD 5 1 true 0 ⟨[], rfl⟩).1
      (by decide)).1⟩
